import Mathlib

/-!
# Verification of the tapsilat-rust SDK's validation and webhook layer

A shallow embedding, in Lean 4, of the pure logic of the `tapsilat-rust`
payment-SDK repository, together with proofs about it:

* `src/modules/validators.rs` — GSM-number, identity-number, email and
  amount validators (`Validators`);
* `src/modules/webhooks.rs` — webhook parsing, signature and timestamp
  verification (`WebhookModule`);
* `src/modules/orders.rs` — `validate_create_order_request`;
* `src/client.rs` — the error-response handling of `make_request`.

Modelling conventions, used throughout:

* Rust `&str` / `String` values that the code manipulates are modelled as
  `List Char` (`Str` below).  Rust's `str::len` is a byte length while
  `List.length` counts characters; the two agree on ASCII data, and every
  branch of the modelled code that could see the difference (a non-ASCII
  character inside a GSM or identity number) rejects the input in both
  readings, only with a different message.
* Machine integers are modelled as `Nat` with explicit `% 2 ^ w` where the
  Rust code can wrap.  Rust `u8` arithmetic in release builds wraps modulo
  256 (in debug builds it panics); the embedding of
  `validate_identity_number` uses the release (wrapping) semantics and
  separately exposes the overflow condition itself.
* `f64` amounts are modelled as exact rationals (`ℚ`): every monetary
  constant that the claims exercise (149.99, 299.98, 0.01, …) is a short
  decimal, and none of the modelled comparisons is decided by a sub-ulp
  margin.
* Fallible Rust code returning `Result<T, TapsilatError>` is modelled as
  `Except TapsilatError T`.
* `SystemTime::now()` is modelled by passing the current Unix time `now`
  explicitly to the functions that read the clock.
* `serde_json` (a library dependency, not repository code) is modelled by a
  small JSON parser and by deserializers that follow the `#[derive]` /
  `#[serde(rename)]` attributes on the repository's types.  Objects with a
  duplicated key are modelled first-occurrence-wins; `serde_json` rejects a
  duplicated struct field, and no theorem below depends on such payloads.
* `std::collections::hash_map::DefaultHasher` (used by the repository's
  placeholder signature scheme) is SipHash-1-3 with both keys zero; it is
  embedded in full below.
-/

/-- Rust strings, as the code manipulates them, modelled as lists of
characters. -/
abbrev Str := List Char

/-- The characters trimmed by Rust's `str::trim` (the Unicode `White_Space`
property). -/
def isRustWhitespace (c : Char) : Bool :=
  c = ' ' || c = '\t' || c = '\n' || c = '\x0b' || c = '\x0c' || c = '\r' ||
  c = '\u0085' || c = '\u00a0' || c = '\u1680' ||
  ('\u2000' ≤ c && c ≤ '\u200a') ||
  c = '\u2028' || c = '\u2029' || c = '\u202f' || c = '\u205f' || c = '\u3000'

/-- Rust's `str::trim`: drop whitespace from both ends. -/
def rustTrim (s : Str) : Str :=
  ((s.dropWhile isRustWhitespace).reverse.dropWhile isRustWhitespace).reverse

/-- Rust's `str::replace(pat, "")` for a one-character pattern: remove every
occurrence of the character. -/
def removeChar (c : Char) (s : Str) : Str :=
  s.filter (fun x => x ≠ c)

deriving instance DecidableEq for Except

/-- The error enum `TapsilatError` of `src/error.rs`.  The `Http` and
`Serialization` variants carry foreign library error values and are never
produced by the logic modelled here, so they are omitted. -/
inductive TapsilatError where
  | InvalidResponse (msg : String)
  | ApiError (status_code : Nat) (message : String)
  | ConfigError (msg : String)
  | ValidationError (msg : String)
deriving DecidableEq, Repr

/-- The `fmt::Display` implementation for `TapsilatError` in `src/error.rs`
(used by the webhook code through `format!("...: {}", e)`). -/
def TapsilatError.display : TapsilatError → String
  | .InvalidResponse msg => "Invalid response: " ++ msg
  | .ApiError status_code message =>
      "API error (" ++ toString status_code ++ "): " ++ message
  | .ConfigError msg => "Configuration error: " ++ msg
  | .ValidationError msg => "Validation error: " ++ msg

namespace Validators

/-- The trim/space/hyphen-stripping step of `Validators::validate_gsm`
(src/modules/validators.rs:16). -/
def gsmStripped (gsm : Str) : Str :=
  removeChar '-' (removeChar ' ' (rustTrim gsm))

/-- The country-code stripping of `Validators::validate_gsm`
(src/modules/validators.rs:19-27): strip the first matching prefix among
`+90`, `90`, `0` from the stripped string. -/
def gsmRemainder (gsm : Str) : Str :=
  if "+90".toList.isPrefixOf (gsmStripped gsm) then (gsmStripped gsm).drop 3
  else if "90".toList.isPrefixOf (gsmStripped gsm) then (gsmStripped gsm).drop 2
  else if "0".toList.isPrefixOf (gsmStripped gsm) then (gsmStripped gsm).drop 1
  else gsmStripped gsm

/-- `Validators::validate_gsm` (src/modules/validators.rs:15-50). -/
def validate_gsm (gsm : Str) : Except TapsilatError Str :=
  if (gsmRemainder gsm).length ≠ 10 then
    .error (.ValidationError "GSM number must be 10 digits long")
  else if ¬ "5".toList.isPrefixOf (gsmRemainder gsm) then
    .error (.ValidationError "Turkish mobile numbers must start with 5")
  else if ¬ (gsmRemainder gsm).all Char.isDigit then
    .error (.ValidationError "GSM number must contain only digits")
  else
    .ok ("90".toList ++ gsmRemainder gsm)

/-- The digit list of a trimmed identity string
(src/modules/validators.rs:96-99): `to_digit(10)` of each character. -/
def identityDigits (identity : Str) : List Nat :=
  identity.map (fun c => c.toNat - '0'.toNat)

/-- `digits[0] + digits[2] + digits[4] + digits[6] + digits[8]`
(src/modules/validators.rs:109).  At most 45, so the `u8` additions cannot
wrap. -/
def identitySumOdd (digits : List Nat) : Nat :=
  digits.getD 0 0 + digits.getD 2 0 + digits.getD 4 0 + digits.getD 6 0 +
    digits.getD 8 0

/-- `digits[1] + digits[3] + digits[5] + digits[7]`
(src/modules/validators.rs:110).  At most 36, so the `u8` additions cannot
wrap. -/
def identitySumEven (digits : List Nat) : Nat :=
  digits.getD 1 0 + digits.getD 3 0 + digits.getD 5 0 + digits.getD 7 0

/-- `(sum_odd * 7 - sum_even) % 10` computed in `u8` arithmetic with the
release-build (wrapping) semantics (src/modules/validators.rs:112): the
multiplication wraps modulo 256, and so does the subtraction when
`sum_even` exceeds it. -/
def identityCheckDigit10 (digits : List Nat) : Nat :=
  ((identitySumOdd digits * 7) % 256 + 256 - identitySumEven digits) % 256 % 10

/-- Whether the `u8` expression `sum_odd * 7 - sum_even` of
src/modules/validators.rs:112 overflows or underflows (in a debug build
either one panics). -/
def identityChecksumWraps (digits : List Nat) : Bool :=
  256 ≤ identitySumOdd digits * 7 ∨
    (identitySumOdd digits * 7) % 256 < identitySumEven digits

/-- `digits[0..10].iter().sum() % 10` (src/modules/validators.rs:119-120);
the sum is at most 90, so the `u8` arithmetic is exact. -/
def identityCheckDigit11 (digits : List Nat) : Nat :=
  ((digits.take 10).sum) % 10

/-- `Validators::validate_identity_number` (src/modules/validators.rs:81-128),
with the wrapping (release-build) semantics for the `u8` checksum. -/
def validate_identity_number (identity : Str) : Except TapsilatError Unit :=
  let identity := rustTrim identity
  if identity.length ≠ 11 then
    .error (.ValidationError "Identity number must be 11 digits")
  else if ¬ identity.all Char.isDigit then
    .error (.ValidationError "Identity number must contain only digits")
  else
    let digits := identityDigits identity
    if digits.getD 0 0 = 0 then
      .error (.ValidationError "Identity number cannot start with 0")
    else if identityCheckDigit10 digits ≠ digits.getD 9 0 then
      .error (.ValidationError "Invalid identity number checksum")
    else if identityCheckDigit11 digits ≠ digits.getD 10 0 then
      .error (.ValidationError "Invalid identity number checksum")
    else
      .ok ()

/-- Whether an input reaches the `u8` checksum computation of
`validate_identity_number`: trimmed it is 11 characters, all ASCII digits,
and the first digit is non-zero. -/
def identityReachesChecksum (identity : Str) : Bool :=
  let identity := rustTrim identity
  identity.length = 11 ∧ identity.all Char.isDigit ∧
    (identityDigits identity).getD 0 0 ≠ 0

end Validators

/-- Modelled from the spec (§4.1 `validate_national_id`), for comparison
with the code: an 11-digit string with non-zero first digit whose 10th
digit is `((d0+d2+d4+d6+d8) * 7 - (d1+d3+d5+d7)) mod 10` computed in exact
integer arithmetic, and whose 11th digit is the sum of the first ten digits
mod 10. -/
def specValidNationalId (identity : Str) : Bool :=
  let identity := rustTrim identity
  identity.length = 11 ∧ identity.all Char.isDigit ∧
  (let d := Validators.identityDigits identity
   d.getD 0 0 ≠ 0 ∧
   ((((Validators.identitySumOdd d * 7 : ℤ) -
       Validators.identitySumEven d) % 10 : ℤ) = d.getD 9 0) ∧
   Validators.identityCheckDigit11 d = d.getD 10 0)

/-! ## DefaultHasher (SipHash-1-3) and the webhook signature scheme -/

namespace Sip

/-- Addition modulo `2 ^ 64` (wrapping `u64` addition). -/
def wadd (a b : Nat) : Nat := (a + b) % 2 ^ 64

/-- Left rotation of a 64-bit word. -/
def rotl (x r : Nat) : Nat :=
  ((x * 2 ^ r) % 2 ^ 64) ||| (x / 2 ^ (64 - r))

/-- The four 64-bit state words of SipHash. -/
structure State where
  v0 : Nat
  v1 : Nat
  v2 : Nat
  v3 : Nat

/-- One SipHash round. -/
def round (s : State) : State :=
  let v0 := wadd s.v0 s.v1
  let v1 := rotl s.v1 13
  let v1 := v1 ^^^ v0
  let v0 := rotl v0 32
  let v2 := wadd s.v2 s.v3
  let v3 := rotl s.v3 16
  let v3 := v3 ^^^ v2
  let v0 := wadd v0 v3
  let v3 := rotl v3 21
  let v3 := v3 ^^^ v0
  let v2 := wadd v2 v1
  let v1 := rotl v1 17
  let v1 := v1 ^^^ v2
  let v2 := rotl v2 32
  ⟨v0, v1, v2, v3⟩

/-- A little-endian 64-bit word from up to eight bytes. -/
def le64 (bs : List Nat) : Nat :=
  bs.foldr (fun b acc => b + 256 * acc) 0

/-- Compress one message word into the state (`c = 1` round for
SipHash-1-3). -/
def compress (s : State) (m : Nat) : State :=
  let s := { s with v3 := s.v3 ^^^ m }
  let s := round s
  { s with v0 := s.v0 ^^^ m }

/-- Consume every full eight-byte block of the message, returning the final
state and the left-over bytes. -/
def blocks (s : State) : List Nat → State × List Nat
  | b0 :: b1 :: b2 :: b3 :: b4 :: b5 :: b6 :: b7 :: rest =>
      blocks (compress s (le64 [b0, b1, b2, b3, b4, b5, b6, b7])) rest
  | rest => (s, rest)

/-- SipHash-1-3 of a byte string, keyed by `(k0, k1)` — the algorithm
behind `std::collections::hash_map::DefaultHasher` (which uses
`k0 = k1 = 0`). -/
def sipHash13 (k0 k1 : Nat) (msg : List Nat) : Nat :=
  let s : State :=
    ⟨k0 ^^^ 0x736f6d6570736575, k1 ^^^ 0x646f72616e646f6d,
     k0 ^^^ 0x6c7967656e657261, k1 ^^^ 0x7465646279746573⟩
  let (s, rest) := blocks s msg
  let b := (msg.length % 256) * 2 ^ 56 + le64 rest
  let s := compress s b
  let s := { s with v2 := s.v2 ^^^ 0xff }
  let s := round (round (round s))
  ((s.v0 ^^^ s.v1) ^^^ (s.v2 ^^^ s.v3)) % 2 ^ 64

end Sip

/-- UTF-8 encoding of one character (Rust `str::as_bytes` is the UTF-8
encoding of the string). -/
def utf8Bytes (c : Char) : List Nat :=
  let n := c.toNat
  if n < 0x80 then [n]
  else if n < 0x800 then [0xc0 ||| (n / 64), 0x80 ||| (n % 64)]
  else if n < 0x10000 then
    [0xe0 ||| (n / 4096), 0x80 ||| ((n / 64) % 64), 0x80 ||| (n % 64)]
  else
    [0xf0 ||| (n / 262144), 0x80 ||| ((n / 4096) % 64),
     0x80 ||| ((n / 64) % 64), 0x80 ||| (n % 64)]

/-- The bytes of a string. -/
def strBytes (s : Str) : List Nat := s.flatMap utf8Bytes

/-- `DefaultHasher` output for a hashed `str`/`String` value: Rust's
`Hash for str` writes the UTF-8 bytes followed by a `0xff` terminator byte,
and `DefaultHasher` is SipHash-1-3 with both keys zero. -/
def defaultHashString (s : Str) : Nat :=
  Sip.sipHash13 0 0 (strBytes s ++ [0xff])

/-- The sixteen lowercase hexadecimal digit characters. -/
def hexDigitChar (n : Nat) : Char :=
  "0123456789abcdef".toList.getD n '0'

/-- Hexadecimal digits of `n`, most significant first, accumulated into
`acc` (17 units of fuel cover any 64-bit value). -/
def hexStrAux : Nat → Nat → Str → Str
  | 0, _, acc => acc
  | fuel + 1, n, acc =>
      if n = 0 then acc
      else hexStrAux fuel (n / 16) (hexDigitChar (n % 16) :: acc)

/-- Rust `format!` of a `u64` with the lowercase-hex format: no leading
zeros, and `"0"` for zero. -/
def hexStr (n : Nat) : Str :=
  if n = 0 then ['0'] else hexStrAux 17 n []

namespace WebhookModule

/-- `WebhookModule::create_signature` (src/modules/webhooks.rs:67-78):
the `DefaultHasher` hash of `format!("{}{}", secret, payload)`, rendered
with the lowercase-hex format. -/
def create_signature (payload secret : Str) : Except TapsilatError Str :=
  .ok (hexStr (defaultHashString (secret ++ payload)))

/-- The `sha256=` prefix stripping of `WebhookModule::verify_signature`
(src/modules/webhooks.rs:57): `strip_prefix("sha256=").unwrap_or(signature)`. -/
def stripSha256 (signature : Str) : Str :=
  if "sha256=".toList.isPrefixOf signature then signature.drop 7 else signature

/-- `WebhookModule::verify_signature` (src/modules/webhooks.rs:52-64). -/
def verify_signature (payload signature secret : Str) :
    Except TapsilatError Bool :=
  let signature := stripSha256 signature
  match create_signature payload secret with
  | .error e => .error e
  | .ok expected_signature => .ok (signature = expected_signature : Bool)

end WebhookModule

/-! ## A model of `serde_json`: JSON values and a parser

`serde_json` is a library dependency; the repository's webhook and client
code call it on payload and body strings.  The model below parses the
standard JSON grammar into a `Json` value (numbers as exact rationals) and
requires the whole input to be consumed, as `serde_json::from_str` does. -/

/-- A JSON value.  Object fields keep their textual order. -/
inductive Json where
  | null : Json
  | bool (b : Bool) : Json
  | num (q : ℚ) : Json
  | str (s : Str) : Json
  | arr (elems : List Json) : Json
  | obj (fields : List (Str × Json)) : Json

/-- JSON insignificant whitespace. -/
def jsonSkipWs (s : Str) : Str :=
  s.dropWhile (fun c => c = ' ' || c = '\t' || c = '\n' || c = '\r')

/-- The numeric value of a list of ASCII digits. -/
def digitsToNat (ds : Str) : Nat :=
  ds.foldl (fun acc c => acc * 10 + (c.toNat - '0'.toNat)) 0

/-- The numeric value of four hexadecimal digits (for `\uXXXX` escapes);
`none` when a character is not a hexadecimal digit. -/
def hex4ToNat (a b c d : Char) : Option Nat :=
  let dv : Char → Option Nat := fun x =>
    if x.isDigit then some (x.toNat - '0'.toNat)
    else if 'a' ≤ x && x ≤ 'f' then some (x.toNat - 'a'.toNat + 10)
    else if 'A' ≤ x && x ≤ 'F' then some (x.toNat - 'A'.toNat + 10)
    else none
  match dv a, dv b, dv c, dv d with
  | some w, some x, some y, some z => some (((w * 16 + x) * 16 + y) * 16 + z)
  | _, _, _, _ => none

/-- Parse the body of a JSON string after its opening quote, returning the
decoded characters and the rest of the input. -/
def parseStringBody : Str → Except String (Str × Str)
  | [] => .error "unterminated string"
  | '"' :: rest => .ok ([], rest)
  | '\\' :: '"' :: rest =>
    (parseStringBody rest).map (fun p => ('"' :: p.1, p.2))
  | '\\' :: '\\' :: rest =>
    (parseStringBody rest).map (fun p => ('\\' :: p.1, p.2))
  | '\\' :: '/' :: rest =>
    (parseStringBody rest).map (fun p => ('/' :: p.1, p.2))
  | '\\' :: 'b' :: rest =>
    (parseStringBody rest).map (fun p => ('\x08' :: p.1, p.2))
  | '\\' :: 'f' :: rest =>
    (parseStringBody rest).map (fun p => ('\x0c' :: p.1, p.2))
  | '\\' :: 'n' :: rest =>
    (parseStringBody rest).map (fun p => ('\n' :: p.1, p.2))
  | '\\' :: 'r' :: rest =>
    (parseStringBody rest).map (fun p => ('\r' :: p.1, p.2))
  | '\\' :: 't' :: rest =>
    (parseStringBody rest).map (fun p => ('\t' :: p.1, p.2))
  | '\\' :: 'u' :: a :: b :: c :: d :: rest =>
    (match hex4ToNat a b c d with
     | some n => (parseStringBody rest).map (fun p => (Char.ofNat n :: p.1, p.2))
     | none => .error "invalid unicode escape")
  | '\\' :: _ => .error "invalid escape"
  | c :: rest =>
    (parseStringBody rest).map (fun p => (c :: p.1, p.2))

/-- Parse a JSON number (`-?int frac? exp?`) into an exact rational. -/
def parseNumber (s : Str) : Except String (ℚ × Str) :=
  let (neg, s1) :=
    match s with
    | '-' :: rest => (true, rest)
    | _ => (false, s)
  let intDigits := s1.takeWhile Char.isDigit
  if intDigits.isEmpty then .error "invalid number"
  else if intDigits.length > 1 && intDigits.getD 0 '0' = '0' then
    .error "invalid number"
  else
    let s2 := s1.drop intDigits.length
    let (fracDigits, s3) :=
      match s2 with
      | '.' :: rest => (rest.takeWhile Char.isDigit, rest.drop (rest.takeWhile Char.isDigit).length)
      | _ => ([], s2)
    if s2.getD 0 ' ' = '.' && fracDigits.isEmpty then .error "invalid number"
    else
      let parseExp : Except String (Bool × Str × Str) :=
        match s3 with
        | 'e' :: rest | 'E' :: rest =>
          let (eneg, rest') :=
            match rest with
            | '+' :: r => (false, r)
            | '-' :: r => (true, r)
            | _ => (false, rest)
          let eds := rest'.takeWhile Char.isDigit
          if eds.isEmpty then .error "invalid number"
          else .ok (eneg, eds, rest'.drop eds.length)
        | _ => .ok (false, [], s3)
      match parseExp with
      | .error msg => .error msg
      | .ok (eneg, expDigits, s4) =>
        let mantissa : ℚ :=
          (digitsToNat intDigits : ℚ) +
            (digitsToNat fracDigits : ℚ) / ((10 : ℚ) ^ fracDigits.length)
        let expVal := digitsToNat expDigits
        let scaled : ℚ :=
          if eneg then mantissa / ((10 : ℚ) ^ expVal)
          else mantissa * ((10 : ℚ) ^ expVal)
        .ok (if neg then -scaled else scaled, s4)

mutual

/-- Parse one JSON value, fuelled. -/
def parseValue : Nat → Str → Except String (Json × Str)
  | 0, _ => .error "recursion limit exceeded"
  | fuel + 1, s =>
    match jsonSkipWs s with
    | [] => .error "unexpected end of input"
    | t =>
      if "null".toList.isPrefixOf t then .ok (.null, t.drop 4)
      else if "true".toList.isPrefixOf t then .ok (.bool true, t.drop 4)
      else if "false".toList.isPrefixOf t then .ok (.bool false, t.drop 5)
      else
        match t with
        | '"' :: rest =>
          match parseStringBody rest with
          | .ok (cs, rem) => .ok (.str cs, rem)
          | .error msg => .error msg
        | '[' :: rest =>
          (match jsonSkipWs rest with
           | ']' :: rem => .ok (.arr [], rem)
           | _ =>
             match parseElems fuel rest with
             | .ok (elems, rem) => .ok (.arr elems, rem)
             | .error msg => .error msg)
        | '{' :: rest =>
          (match jsonSkipWs rest with
           | '}' :: rem => .ok (.obj [], rem)
           | _ =>
             match parseFields fuel rest with
             | .ok (fields, rem) => .ok (.obj fields, rem)
             | .error msg => .error msg)
        | c :: _ =>
          if c.isDigit || c = '-' then
            match parseNumber t with
            | .ok (q, rem) => .ok (.num q, rem)
            | .error msg => .error msg
          else .error "unexpected character"
        | [] => .error "unexpected end of input"

/-- Parse the comma-separated elements of a non-empty array, up to and
including the closing bracket. -/
def parseElems : Nat → Str → Except String (List Json × Str)
  | 0, _ => .error "recursion limit exceeded"
  | fuel + 1, s =>
    match parseValue fuel s with
    | .error msg => .error msg
    | .ok (j, rest) =>
      match jsonSkipWs rest with
      | ',' :: rest' =>
        (match parseElems fuel rest' with
         | .ok (elems, rem) => .ok (j :: elems, rem)
         | .error msg => .error msg)
      | ']' :: rem => .ok ([j], rem)
      | _ => .error "expected comma or closing bracket"

/-- Parse the comma-separated fields of a non-empty object, up to and
including the closing brace. -/
def parseFields : Nat → Str → Except String (List (Str × Json) × Str)
  | 0, _ => .error "recursion limit exceeded"
  | fuel + 1, s =>
    match jsonSkipWs s with
    | '"' :: rest =>
      (match parseStringBody rest with
       | .error msg => .error msg
       | .ok (key, rest') =>
         match jsonSkipWs rest' with
         | ':' :: rest'' =>
           (match parseValue fuel rest'' with
            | .error msg => .error msg
            | .ok (j, rest3) =>
              match jsonSkipWs rest3 with
              | ',' :: rest4 =>
                (match parseFields fuel rest4 with
                 | .ok (fields, rem) => .ok ((key, j) :: fields, rem)
                 | .error msg => .error msg)
              | '}' :: rem => .ok ([(key, j)], rem)
              | _ => .error "expected comma or closing brace")
         | _ => .error "expected colon")
    | _ => .error "key must be a string"

end

/-- `serde_json::from_str::<Value>`: parse one JSON value and insist the
whole input is consumed. -/
def parseJson (s : Str) : Except String Json :=
  match parseValue (s.length + 1) s with
  | .error msg => .error msg
  | .ok (j, rest) =>
    if (jsonSkipWs rest).isEmpty then .ok j else .error "trailing characters"

/-! ## Webhook types (src/types/webhook.rs) and their deserialization -/

/-- `WebhookEventType` (src/types/webhook.rs:12-30): a closed enum whose
serde renames are the eight event strings. -/
inductive WebhookEventType where
  | OrderCompleted
  | OrderFailed
  | OrderCancelled
  | OrderRefunded
  | PaymentCompleted
  | PaymentFailed
  | InstallmentCompleted
  | InstallmentFailed
deriving DecidableEq, Repr

/-- The serde rename of each `WebhookEventType` variant. -/
def WebhookEventType.rename : WebhookEventType → Str
  | .OrderCompleted => "order.completed".toList
  | .OrderFailed => "order.failed".toList
  | .OrderCancelled => "order.cancelled".toList
  | .OrderRefunded => "order.refunded".toList
  | .PaymentCompleted => "payment.completed".toList
  | .PaymentFailed => "payment.failed".toList
  | .InstallmentCompleted => "installment.completed".toList
  | .InstallmentFailed => "installment.failed".toList

/-- The eight event-type strings the closed enum accepts. -/
def knownEventNames : List Str :=
  ["order.completed".toList, "order.failed".toList, "order.cancelled".toList,
   "order.refunded".toList, "payment.completed".toList,
   "payment.failed".toList, "installment.completed".toList,
   "installment.failed".toList]

/-- `WebhookData` (src/types/webhook.rs:32-41): every field optional;
`metadata` is a map from strings to arbitrary JSON values. -/
structure WebhookData where
  order_id : Option Str
  payment_id : Option Str
  installment_id : Option Str
  amount : Option ℚ
  currency : Option Str
  status : Option Str
  metadata : Option (List (Str × Json))

/-- `WebhookEvent` (src/types/webhook.rs:4-10). -/
structure WebhookEvent where
  event_type : WebhookEventType
  data : WebhookData
  timestamp : Str
  signature : Option Str

/-- `WebhookVerificationResult` (src/types/webhook.rs:43-47). -/
structure WebhookVerificationResult where
  is_valid : Bool
  error : Option String
deriving DecidableEq, Repr

/-- `WebhookVerificationConfig` (src/types/webhook.rs:49-53). -/
structure WebhookVerificationConfig where
  secret : Str
  tolerance_seconds : Option Nat

/-- First field of an object with the given key (serde ignores unknown
fields; a duplicated field, which serde rejects, is modelled
first-occurrence-wins). -/
def lookupField (j : Json) (key : Str) : Option Json :=
  match j with
  | .obj fields => (fields.find? (fun p => p.1 = key)).map (·.2)
  | _ => none

/-- Deserialize a `WebhookEventType` from a JSON value: it must be one of
the eight rename strings. -/
def deserializeEventType (j : Json) : Except String WebhookEventType :=
  match j with
  | .str s =>
    if s = "order.completed".toList then .ok .OrderCompleted
    else if s = "order.failed".toList then .ok .OrderFailed
    else if s = "order.cancelled".toList then .ok .OrderCancelled
    else if s = "order.refunded".toList then .ok .OrderRefunded
    else if s = "payment.completed".toList then .ok .PaymentCompleted
    else if s = "payment.failed".toList then .ok .PaymentFailed
    else if s = "installment.completed".toList then .ok .InstallmentCompleted
    else if s = "installment.failed".toList then .ok .InstallmentFailed
    else .error "unknown variant for WebhookEventType"
  | _ => .error "invalid type: expected string for WebhookEventType"

/-- Deserialize an `Option<String>` field: missing or `null` is `None`, a
string is `Some`, anything else is a type error. -/
def deserializeOptStr (v : Option Json) : Except String (Option Str) :=
  match v with
  | none => .ok none
  | some .null => .ok none
  | some (.str s) => .ok (some s)
  | some _ => .error "invalid type: expected string or null"

/-- Deserialize an `Option<f64>` field. -/
def deserializeOptNum (v : Option Json) : Except String (Option ℚ) :=
  match v with
  | none => .ok none
  | some .null => .ok none
  | some (.num q) => .ok (some q)
  | some _ => .error "invalid type: expected number or null"

/-- Deserialize an `Option<HashMap<String, Value>>` field. -/
def deserializeOptMap (v : Option Json) :
    Except String (Option (List (Str × Json))) :=
  match v with
  | none => .ok none
  | some .null => .ok none
  | some (.obj fields) => .ok (some fields)
  | some _ => .error "invalid type: expected map or null"

/-- Deserialize `WebhookData` from a JSON value (derived `Deserialize` on
the struct of seven optional fields). -/
def deserializeWebhookData (j : Json) : Except String WebhookData :=
  match j with
  | .obj _ => do
    let order_id ← deserializeOptStr (lookupField j "order_id".toList)
    let payment_id ← deserializeOptStr (lookupField j "payment_id".toList)
    let installment_id ←
      deserializeOptStr (lookupField j "installment_id".toList)
    let amount ← deserializeOptNum (lookupField j "amount".toList)
    let currency ← deserializeOptStr (lookupField j "currency".toList)
    let status ← deserializeOptStr (lookupField j "status".toList)
    let metadata ← deserializeOptMap (lookupField j "metadata".toList)
    .ok ⟨order_id, payment_id, installment_id, amount, currency, status,
         metadata⟩
  | _ => .error "invalid type: expected struct WebhookData"

/-- The required `event_type` field: missing fails, present deserializes
through the closed enum. -/
def deserializeEventTypeField (v : Option Json) :
    Except String WebhookEventType :=
  match v with
  | none => .error "missing field event_type"
  | some v => deserializeEventType v

/-- The required `data` field. -/
def deserializeDataField (v : Option Json) : Except String WebhookData :=
  match v with
  | none => .error "missing field data"
  | some v => deserializeWebhookData v

/-- The required `timestamp` field: it must be a JSON string. -/
def deserializeTimestampField (v : Option Json) : Except String Str :=
  match v with
  | none => .error "missing field timestamp"
  | some (.str s) => .ok s
  | some _ => .error "invalid type: expected string for timestamp"

/-- Deserialize `WebhookEvent` from a JSON value: `event_type`, `data` and
`timestamp` are required, `signature` is optional. -/
def deserializeWebhookEvent (j : Json) : Except String WebhookEvent :=
  match j with
  | .obj _ => do
    let event_type ← deserializeEventTypeField (lookupField j "event_type".toList)
    let data ← deserializeDataField (lookupField j "data".toList)
    let timestamp ← deserializeTimestampField (lookupField j "timestamp".toList)
    let signature ← deserializeOptStr (lookupField j "signature".toList)
    .ok ⟨event_type, data, timestamp, signature⟩
  | _ => .error "invalid type: expected struct WebhookEvent"

/-- `serde_json::from_str::<WebhookEvent>`: parse, then deserialize. -/
def fromStrWebhookEvent (payload : Str) : Except String WebhookEvent :=
  match parseJson payload with
  | .error e => .error e
  | .ok j => deserializeWebhookEvent j

/-- Rust `str::parse::<u64>`: optional leading `+`, at least one ASCII
digit, value below `2 ^ 64`; the error strings are the `ParseIntError`
messages. -/
def parseU64 (s : Str) : Except String Nat :=
  match s with
  | [] => .error "cannot parse integer from empty string"
  | _ =>
    let t := match s with
      | '+' :: rest => rest
      | _ => s
    if t.isEmpty then .error "invalid digit found in string"
    else if ¬ t.all Char.isDigit then .error "invalid digit found in string"
    else if 2 ^ 64 ≤ digitsToNat t then
      .error "number too large to fit in target type"
    else .ok (digitsToNat t)

namespace WebhookModule

/-- `WebhookModule::parse_webhook` (src/modules/webhooks.rs:44-49). -/
def parse_webhook (payload : Str) : Except TapsilatError WebhookEvent :=
  match fromStrWebhookEvent payload with
  | .error e =>
      .error (.InvalidResponse ("Failed to parse webhook payload: " ++ e))
  | .ok evt => .ok evt

/-- `WebhookModule::parse_iso8601_timestamp` (src/modules/webhooks.rs:118-130):
the simplified parser just returns the current time. -/
def parse_iso8601_timestamp (now : Nat) (_timestamp : Str) :
    Except TapsilatError Nat :=
  .ok now

/-- `WebhookModule::verify_timestamp` (src/modules/webhooks.rs:81-115), with
the current Unix time passed explicitly. -/
def verify_timestamp (now : Nat) (timestamp_str : Str) (tolerance_seconds : Nat) :
    Except TapsilatError Unit :=
  let webhook_time : Except TapsilatError Nat :=
    if timestamp_str.contains 'T' then
      parse_iso8601_timestamp now timestamp_str
    else
      match parseU64 timestamp_str with
      | .error e => .error (.InvalidResponse ("Invalid timestamp format: " ++ e))
      | .ok n => .ok n
  match webhook_time with
  | .error e => .error e
  | .ok webhook_time =>
    let current_time := now
    let time_diff :=
      if current_time > webhook_time then current_time - webhook_time
      else webhook_time - current_time
    if time_diff > tolerance_seconds then
      .error (.InvalidResponse
        ("Webhook timestamp too old or too far in future. Difference: " ++
         toString time_diff ++ "s, tolerance: " ++
         toString tolerance_seconds ++ "s"))
    else .ok ()

/-- The signature-checking tail of `WebhookModule::verify_webhook`
(src/modules/webhooks.rs:31-40), shared by both paths through the
tolerance check. -/
def verifySignatureResult (payload signature secret : Str) :
    Except TapsilatError WebhookVerificationResult :=
  match verify_signature payload signature secret with
  | .ok is_valid =>
      .ok ⟨is_valid, if is_valid then none else some "Invalid signature"⟩
  | .error e =>
      .ok ⟨false, some ("Signature verification error: " ++ e.display)⟩

/-- `WebhookModule::verify_webhook` (src/modules/webhooks.rs:9-41), with the
current Unix time passed explicitly. -/
def verify_webhook (now : Nat) (payload signature : Str)
    (config : WebhookVerificationConfig) :
    Except TapsilatError WebhookVerificationResult :=
  match fromStrWebhookEvent payload with
  | .error e =>
      .error (.InvalidResponse ("Invalid webhook payload: " ++ e))
  | .ok webhook_event =>
    match config.tolerance_seconds with
    | some tolerance =>
      match verify_timestamp now webhook_event.timestamp tolerance with
      | .error e =>
          .ok ⟨false, some ("Timestamp validation failed: " ++ e.display)⟩
      | .ok () => verifySignatureResult payload signature config.secret
    | none => verifySignatureResult payload signature config.secret

end WebhookModule

/-! ## Client error-response handling (src/client.rs) -/

/-- `serde_json`'s `Value` index with a string key, as in
`error_body["message"]`: `Null` when the value is not an object or the key
is absent. -/
def jsonIndex (j : Json) (key : Str) : Json :=
  (lookupField j key).getD .null

/-- `Value::as_str`. -/
def jsonAsStr (j : Json) : Option Str :=
  match j with
  | .str s => some s
  | _ => none

namespace TapsilatClient

/-- `serde_json::from_str(&body_text).unwrap_or_default()` of
src/client.rs:337-338: the parsed error body, or `Null` when the body is
not JSON. -/
def errorBody (body_text : Str) : Json :=
  match parseJson body_text with
  | .ok j => j
  | .error _ => .null

/-- The error-message extraction of `TapsilatClient::make_request`
(src/client.rs:337-342): index the `message` field of the parsed error
body and take it `as_str()`, falling back to `"Unknown API error"`. -/
def apiErrorMessage (body_text : Str) : String :=
  match jsonAsStr (jsonIndex (errorBody body_text) "message".toList) with
  | some s => String.mk s
  | none => "Unknown API error"

/-- The response-handling tail of `TapsilatClient::make_request`
(src/client.rs:328-373), as a function of the response status and the body
text that was read (a body-read failure on the error path is already
`unwrap_or_default()`-ed to an empty body by the source). -/
def handleResponse (status : Nat) (body_text : Str) :
    Except TapsilatError Json :=
  if 400 ≤ status then
    .error (.ApiError status (apiErrorMessage body_text))
  else if (rustTrim body_text).isEmpty then
    .ok .null
  else
    match parseJson body_text with
    | .error e =>
        .error (.ConfigError ("Failed to parse response JSON: " ++ e ++
          ". Response was: " ++ String.mk body_text))
    | .ok j => .ok j

end TapsilatClient

/-! ## Amount, email and create-order validation
(src/modules/validators.rs, src/modules/orders.rs) -/

/-- Round a rational to the nearest integer, ties to even (the rounding of
Rust's decimal float formatting). -/
def roundTiesEven (q : ℚ) : ℤ :=
  let f : ℤ := q.floor
  let r : ℚ := q - (f : ℚ)
  if r < 1 / 2 then f
  else if 1 / 2 < r then f + 1
  else if f % 2 = 0 then f
  else f + 1

/-- Digits left of a 10-digit decimal fraction after
`trim_end_matches('0')`: with fuel `k`, `d` holds the last `k` fractional
digits. -/
def fracDigitsAux : Nat → Nat → Nat
  | 0, _ => 0
  | k + 1, d => if d % 10 = 0 then fracDigitsAux k (d / 10) else k + 1

namespace Validators

/-- The decimal-places count of `Validators::validate_amount`
(src/modules/validators.rs:139-144): format the amount with ten fractional
digits, trim the trailing zeros, and count what is left after the point. -/
def decimalPlaces (amount : ℚ) : Nat :=
  fracDigitsAux 10 ((roundTiesEven (amount * 10 ^ 10)).toNat % 10 ^ 10)

/-- `Validators::validate_amount` (src/modules/validators.rs:131-153). -/
def validate_amount (amount : ℚ) : Except TapsilatError Unit :=
  if amount ≤ 0 then
    .error (.ValidationError "Amount must be greater than 0")
  else if 2 < decimalPlaces amount then
    .error (.ValidationError "Amount cannot have more than 2 decimal places")
  else .ok ()

/-- Split a list at every occurrence of a separator character. -/
def splitOnChar (sep : Char) (s : Str) : List Str :=
  s.foldr
    (fun c acc =>
      match acc with
      | [] => [[c]]
      | h :: t => if c = sep then [] :: h :: t else (c :: h) :: t)
    [[]]

/-- Whether a string matches the email regex
  of src/modules/validators.rs:68 (anchored; the three bracket classes
forbid whitespace and at-signs, so the string must contain exactly one
at-sign, and after it a dot with at least one character on each side). -/
def emailMatch (s : Str) : Bool :=
  match splitOnChar '@' s with
  | [localPart, domain] =>
      ¬ localPart.isEmpty &&
      localPart.all (fun c => ¬ isRustWhitespace c) &&
      domain.all (fun c => ¬ isRustWhitespace c) &&
      (domain.dropLast.drop 1).contains '.'
  | _ => false

/-- `Validators::validate_email` (src/modules/validators.rs:67-78); the
regex-compilation error branch is unreachable for the fixed pattern. -/
def validate_email (email : Str) : Except TapsilatError Unit :=
  if emailMatch email then .ok ()
  else .error (.ValidationError "Invalid email format")

end Validators

/-- `OrderItem` (src/types/order.rs:38-43). -/
structure OrderItem where
  name : Str
  price : ℚ
  quantity : Int
  description : Option Str

/-- The buyer fields `OrderModule::validate_create_order_request` reads
(src/modules/orders.rs:190-197). -/
structure OrderBuyer where
  email : Str
  gsm : Str

/-- The fields of a create-order request that
`OrderModule::validate_create_order_request` reads
(src/modules/orders.rs:185-235): the amount, the optional buyer and the
item list. -/
structure CreateOrderRequest where
  amount : ℚ
  buyer : Option OrderBuyer
  items : List OrderItem

namespace OrderModule

/-- The per-item loop of `validate_create_order_request`
(src/modules/orders.rs:206-220). -/
def validateItems : List OrderItem → Except TapsilatError Unit
  | [] => .ok ()
  | item :: rest =>
    match Validators.validate_amount item.price with
    | .error e => .error e
    | .ok () =>
      if item.quantity ≤ 0 then
        .error (.ValidationError "Item quantity must be greater than 0")
      else if (rustTrim item.name).isEmpty then
        .error (.ValidationError "Item name cannot be empty")
      else validateItems rest

/-- `items.iter().map(|item| item.price * item.quantity as f64).sum()`
(src/modules/orders.rs:223-225). -/
def calculatedTotal (items : List OrderItem) : ℚ :=
  (items.map (fun item => item.price * (item.quantity : ℚ))).sum

/-- Rust `format!` of an `f64` with two fixed decimal places, as used in
the mismatch message of src/modules/orders.rs:229. -/
def fmt2 (q : ℚ) : String :=
  let sign := if q < 0 then "-" else ""
  let n := (roundTiesEven (|q| * 100)).toNat
  sign ++ toString (n / 100) ++ "." ++
    (if n % 100 < 10 then "0" else "") ++ toString (n % 100)

/-- The buyer validation of `validate_create_order_request`
(src/modules/orders.rs:190-197): email, then GSM (whose normalized result
is discarded). -/
def validateBuyer : Option OrderBuyer → Except TapsilatError Unit
  | some buyer =>
    match Validators.validate_email buyer.email with
    | .error e => .error e
    | .ok () =>
      match Validators.validate_gsm buyer.gsm with
      | .error e => .error e
      | .ok _normalized_gsm => .ok ()
  | none => .ok ()

/-- `OrderModule::validate_create_order_request`
(src/modules/orders.rs:185-235). -/
def validate_create_order_request (request : CreateOrderRequest) :
    Except TapsilatError Unit :=
  match Validators.validate_amount request.amount with
  | .error e => .error e
  | .ok () =>
    match validateBuyer request.buyer with
    | .error e => .error e
    | .ok () =>
      if request.items.isEmpty then
        .error (.ValidationError "Order must have at least one item")
      else
        match validateItems request.items with
        | .error e => .error e
        | .ok () =>
          if 1 / 100 < |request.amount - calculatedTotal request.items| then
            .error (.ValidationError
              ("Order amount (" ++ fmt2 request.amount ++
               ") doesn't match items total (" ++
               fmt2 (calculatedTotal request.items) ++ ")"))
          else .ok ()

end OrderModule

/-! ## Helper lemmas -/

lemma dropWhile_eq_self_of {p : Char → Bool} {l : Str}
    (h : ∀ c ∈ l, p c = false) : l.dropWhile p = l := by
  cases l with
  | nil => rfl
  | cons a t =>
    rw [List.dropWhile_cons, h a (List.mem_cons_self a t)]
    simp

lemma rustTrim_eq_self {l : Str} (h : ∀ c ∈ l, isRustWhitespace c = false) :
    rustTrim l = l := by
  unfold rustTrim
  rw [dropWhile_eq_self_of h, dropWhile_eq_self_of, List.reverse_reverse]
  intro c hc
  exact h c (List.mem_reverse.mp hc)

lemma removeChar_eq_self {c : Char} {l : Str} (h : ∀ x ∈ l, x ≠ c) :
    removeChar c l = l := by
  unfold removeChar
  rw [List.filter_eq_self]
  intro a ha
  simpa using h a ha

/-- An ASCII digit is not whitespace, not a space and not a hyphen. -/
lemma isDigit_facts {c : Char} (h : c.isDigit = true) :
    isRustWhitespace c = false ∧ c ≠ ' ' ∧ c ≠ '-' := by
  have h09 : '0' ≤ c ∧ c ≤ '9' := by simpa [Char.isDigit] using h
  obtain ⟨h0, h9⟩ := h09
  refine ⟨?_, ?_, ?_⟩
  · cases hw : isRustWhitespace c with
    | false => rfl
    | true =>
      exfalso
      unfold isRustWhitespace at hw
      simp only [Bool.or_eq_true, decide_eq_true_eq, Bool.and_eq_true] at hw
      rcases hw with (((((((((((((h' | h') | h') | h') | h') | h') | h') | h') | h') | ⟨ha, _⟩) | h') | h') | h') | h') | h'
      all_goals
        first
        | (subst h'; exact absurd (And.intro h0 h9) (by decide))
        | exact absurd (le_trans ha h9) (by decide)
  · intro he
    subst he
    exact absurd (And.intro h0 h9) (by decide)
  · intro he
    subst he
    exact absurd (And.intro h0 h9) (by decide)

/-! ## Theorems -/

/-- **C1.** The claim reads `validate_identity_number`'s checksum as exact
integer arithmetic; the code computes it in `u8`, which wraps.  At
`"99999999934"` the wrapped checksum accepts while the exact algorithm of
the spec rejects, and at `"99999999990"` the exact algorithm accepts while
the code rejects (in a debug build the code instead panics on both: the
claim's acceptance condition fails against the code as written). -/
theorem validate_identity_number_wrapping_divergence :
    Validators.validate_identity_number "99999999934".toList = .ok () ∧
    specValidNationalId "99999999934".toList = false ∧
    Validators.validate_identity_number "99999999990".toList =
      .error (.ValidationError "Invalid identity number checksum") ∧
    specValidNationalId "99999999990".toList = true := by
  refine ⟨by decide, by decide, by decide, by decide⟩

/-- **C8.** The `u8` computation `sum_odd * 7 - sum_even` is not overflow-
free on inputs that reach it: `"99999999999"` reaches the checksum with
`sum_odd * 7 = 315 > 255` (a multiplication overflow), and `"19090909000"`
reaches it with `sum_odd * 7 = 7 < sum_even = 36` (a subtraction
underflow).  In a debug build either input panics, against the claim's
"total ... without panicking". -/
theorem validate_identity_number_checksum_overflows :
    Validators.identityReachesChecksum "99999999999".toList = true ∧
    Validators.identitySumOdd
        (Validators.identityDigits (rustTrim "99999999999".toList)) * 7 =
      315 ∧
    Validators.identityChecksumWraps
        (Validators.identityDigits (rustTrim "99999999999".toList)) = true ∧
    Validators.identityReachesChecksum "19090909000".toList = true ∧
    (Validators.identitySumOdd
          (Validators.identityDigits (rustTrim "19090909000".toList)) * 7)
        % 256 <
      Validators.identitySumEven
        (Validators.identityDigits (rustTrim "19090909000".toList)) ∧
    Validators.identityChecksumWraps
        (Validators.identityDigits (rustTrim "19090909000".toList)) = true := by
  refine ⟨by decide, by decide, by decide, by decide, by decide, by decide⟩

/-- **C3.** `validate_gsm` maps the four claimed formats to
`"905551234567"`, rejects `"4551234567"`, and in general returns `Ok` of
`"90"` followed by the stripped remainder exactly when that remainder is
ten ASCII digits starting with `'5'`, returning a `ValidationError`
otherwise. -/
theorem validate_gsm_spec :
    (Validators.validate_gsm "5551234567".toList =
        .ok "905551234567".toList ∧
      Validators.validate_gsm "05551234567".toList =
        .ok "905551234567".toList ∧
      Validators.validate_gsm "905551234567".toList =
        .ok "905551234567".toList ∧
      Validators.validate_gsm "+905551234567".toList =
        .ok "905551234567".toList) ∧
    Validators.validate_gsm "4551234567".toList =
      .error (.ValidationError "Turkish mobile numbers must start with 5") ∧
    (∀ gsm : Str,
      Validators.validate_gsm gsm =
          .ok ("90".toList ++ Validators.gsmRemainder gsm) ↔
        ((Validators.gsmRemainder gsm).length = 10 ∧
          "5".toList.isPrefixOf (Validators.gsmRemainder gsm) ∧
          (Validators.gsmRemainder gsm).all Char.isDigit)) ∧
    (∀ gsm r, Validators.validate_gsm gsm = .ok r →
      r = "90".toList ++ Validators.gsmRemainder gsm) ∧
    (∀ gsm : Str,
      ¬ ((Validators.gsmRemainder gsm).length = 10 ∧
          "5".toList.isPrefixOf (Validators.gsmRemainder gsm) ∧
          (Validators.gsmRemainder gsm).all Char.isDigit) →
      ∃ m, Validators.validate_gsm gsm = .error (.ValidationError m)) := by
  refine ⟨⟨by decide, by decide, by decide, by decide⟩, by decide, ?_, ?_, ?_⟩
  · intro gsm
    unfold Validators.validate_gsm
    split_ifs with h1 h2 h3 <;> simp_all
  · intro gsm r h
    unfold Validators.validate_gsm at h
    split_ifs at h with h1 h2 h3
    simp_all
  · intro gsm h
    unfold Validators.validate_gsm
    split_ifs with h1 h2 h3 <;>
      first
      | exact ⟨_, rfl⟩
      | (push_neg at h1; exact absurd ⟨h1, h2, h3⟩ h)

/-- Prepending `"90"` to a list of ASCII digits and re-stripping it gives
the digits back. -/
lemma gsmRemainder_prepend_90 (rem : Str)
    (hdig : ∀ c ∈ rem, c.isDigit = true) :
    Validators.gsmRemainder ('9' :: '0' :: rem) = rem := by
  have hnws : ∀ c ∈ '9' :: '0' :: rem, isRustWhitespace c = false := by
    intro c hc
    rcases hc with _ | ⟨_, hc⟩
    · decide
    · rcases hc with _ | ⟨_, hc⟩
      · decide
      · exact (isDigit_facts (hdig c hc)).1
  have hsp : ∀ c ∈ '9' :: '0' :: rem, c ≠ ' ' := by
    intro c hc
    rcases hc with _ | ⟨_, hc⟩
    · decide
    · rcases hc with _ | ⟨_, hc⟩
      · decide
      · exact (isDigit_facts (hdig c hc)).2.1
  have hhy : ∀ c ∈ '9' :: '0' :: rem, c ≠ '-' := by
    intro c hc
    rcases hc with _ | ⟨_, hc⟩
    · decide
    · rcases hc with _ | ⟨_, hc⟩
      · decide
      · exact (isDigit_facts (hdig c hc)).2.2
  have hstr : Validators.gsmStripped ('9' :: '0' :: rem) = '9' :: '0' :: rem := by
    unfold Validators.gsmStripped
    rw [rustTrim_eq_self hnws, removeChar_eq_self hsp, removeChar_eq_self hhy]
  unfold Validators.gsmRemainder
  rw [hstr]
  simp [List.isPrefixOf]

/-- **C10.** Phone-number normalization is idempotent: a successful output
of `validate_gsm` validates again to itself. -/
theorem validate_gsm_idempotent (gsm r : Str)
    (h : Validators.validate_gsm gsm = .ok r) :
    Validators.validate_gsm r = .ok r := by
  unfold Validators.validate_gsm at h
  split_ifs at h with h1 h2 h3
  push_neg at h1
  replace h : r = '9' :: '0' :: Validators.gsmRemainder gsm :=
    (Except.ok.inj h).symm
  subst h
  have hdig : ∀ c ∈ Validators.gsmRemainder gsm, c.isDigit = true :=
    List.all_eq_true.mp h3
  have hrem := gsmRemainder_prepend_90 (Validators.gsmRemainder gsm) hdig
  unfold Validators.validate_gsm
  rw [hrem]
  rw [List.isPrefixOf_iff_prefix] at h2
  simp [h1, h3]
  exact h2

/-- **C2 counterexample.** On a payload that fails to parse,
`verify_webhook` returns a hard `Err(InvalidResponse ...)`, not the
`Ok { is_valid := false, .. }` the claim asserts. -/
theorem verify_webhook_parse_failure_cex :
    WebhookModule.verify_webhook 0 "not json".toList "sig".toList
        ⟨"secret".toList, none⟩ =
      .error (.InvalidResponse
        "Invalid webhook payload: unexpected character") ∧
    (WebhookModule.verify_webhook 0 "not json".toList "sig".toList
        ⟨"secret".toList, none⟩).isOk = false := by
  exact ⟨by decide, by decide⟩

/-- **C2 (amended).** For every payload that fails to parse as a
`WebhookEvent`, `verify_webhook` propagates the parse failure as a hard
error `Err(InvalidResponse("Invalid webhook payload: ..."))` — it does not
panic, but neither does it return an invalid `Ok` result; `parse_webhook`
called standalone surfaces the same failure as
`Err(InvalidResponse("Failed to parse webhook payload: ..."))`. -/
theorem verify_webhook_parse_failure (now : Nat) (payload signature : Str)
    (config : WebhookVerificationConfig) (e : String)
    (h : fromStrWebhookEvent payload = .error e) :
    WebhookModule.verify_webhook now payload signature config =
      .error (.InvalidResponse ("Invalid webhook payload: " ++ e)) ∧
    WebhookModule.parse_webhook payload =
      .error (.InvalidResponse ("Failed to parse webhook payload: " ++ e)) := by
  unfold WebhookModule.verify_webhook WebhookModule.parse_webhook
  rw [h]
  exact ⟨rfl, rfl⟩

theorem verify_webhook_parse_failure_witness :
    WebhookModule.verify_webhook 0 "not json".toList "sig".toList
        ⟨"secret".toList, none⟩ =
      .error (.InvalidResponse
        ("Invalid webhook payload: " ++ "unexpected character")) ∧
    WebhookModule.parse_webhook "not json".toList =
      .error (.InvalidResponse
        ("Failed to parse webhook payload: " ++ "unexpected character")) :=
  verify_webhook_parse_failure 0 "not json".toList "sig".toList
    ⟨"secret".toList, none⟩ "unexpected character" (by rfl)

/-- Every `Ok` result of the signature tail satisfies the error/validity
invariant. -/
lemma verifySignatureResult_invariant {p s sec : Str}
    {r : WebhookVerificationResult}
    (h : WebhookModule.verifySignatureResult p s sec = .ok r) :
    r.error = none ↔ r.is_valid = true := by
  unfold WebhookModule.verifySignatureResult at h
  cases hv : WebhookModule.verify_signature p s sec with
  | ok b =>
    rw [hv] at h
    replace h := Except.ok.inj h
    rw [← h]
    cases b <;> simp
  | error e =>
    rw [hv] at h
    replace h := Except.ok.inj h
    rw [← h]
    simp

/-- **C9.** Every verification result that `verify_webhook` returns through
`Ok` carries an error string exactly when it is invalid: `error = none`
if and only if `is_valid = true`. -/
theorem verify_webhook_result_invariant (now : Nat) (payload signature : Str)
    (config : WebhookVerificationConfig) (r : WebhookVerificationResult)
    (h : WebhookModule.verify_webhook now payload signature config = .ok r) :
    r.error = none ↔ r.is_valid = true := by
  unfold WebhookModule.verify_webhook at h
  split at h
  · exact absurd h (by simp)
  · split at h
    · split at h
      · replace h := Except.ok.inj h
        rw [← h]
        simp
      · exact verifySignatureResult_invariant h
    · exact verifySignatureResult_invariant h

theorem verify_webhook_result_invariant_witness :
    (⟨false, some "Invalid signature"⟩ :
        WebhookVerificationResult).error = none ↔
      (⟨false, some "Invalid signature"⟩ :
        WebhookVerificationResult).is_valid = true :=
  verify_webhook_result_invariant 0
    "\x7b\"event_type\": \"order.completed\", \"data\": \x7b\x7d, \"timestamp\": \"123\"\x7d".toList
    "sig".toList ⟨"secret".toList, none⟩ ⟨false, some "Invalid signature"⟩
    (by decide)

/-- Every character `hexStrAux` adds to the accumulator is a hexadecimal
digit character. -/
lemma hexStrAux_chars :
    ∀ fuel n acc,
      (∀ c ∈ acc, ∃ m, m < 16 ∧ c = hexDigitChar m) →
      ∀ c ∈ hexStrAux fuel n acc, ∃ m, m < 16 ∧ c = hexDigitChar m := by
  intro fuel
  induction fuel with
  | zero =>
    intro n acc hacc c hc
    exact hacc c hc
  | succ k ih =>
    intro n acc hacc c hc
    unfold hexStrAux at hc
    by_cases hn : n = 0
    · rw [if_pos hn] at hc
      exact hacc c hc
    · rw [if_neg hn] at hc
      refine ih (n / 16) _ ?_ c hc
      intro d hd
      rcases hd with _ | ⟨_, hd⟩
      · exact ⟨n % 16, Nat.mod_lt _ (by norm_num), rfl⟩
      · exact hacc d hd

/-- Every character of a hex-formatted number is a hexadecimal digit. -/
lemma hexStr_chars {n : Nat} : ∀ c ∈ hexStr n, ∃ m, m < 16 ∧ c = hexDigitChar m := by
  unfold hexStr
  split_ifs
  · intro c hc
    rcases hc with _ | ⟨_, hc⟩
    · exact ⟨0, by norm_num, rfl⟩
    · exact absurd hc (List.not_mem_nil c)
  · exact hexStrAux_chars 17 n [] (by simp)

/-- No hex digit is the letter `s`. -/
lemma hexDigitChar_ne_s : ∀ m, m < 16 → hexDigitChar m ≠ 's' := by decide

/-- A string starting with `sha256=` is never a hex-formatted hash. -/
lemma sha_prefix_ne_hexStr {t : Str} {n : Nat} :
    "sha256=".toList ++ t ≠ hexStr n := by
  intro he
  have hs : 's' ∈ hexStr n := by
    rw [← he]
    exact List.mem_cons_self 's' _
  obtain ⟨m, hm, hc⟩ := hexStr_chars 's' hs
  exact hexDigitChar_ne_s m hm hc.symm

/-- **C5 counterexample.** Stripping is applied only once: when the
supplied signature is already `sha256=` followed by the expected hash,
prefixing another `sha256=` flips the verification outcome, against the
claim's universally-quantified equality. -/
theorem verify_signature_double_prefix_cex :
    WebhookModule.verify_signature []
        ("sha256=".toList ++
          ("sha256=".toList ++ hexStr (defaultHashString []))) [] ≠
      WebhookModule.verify_signature []
        ("sha256=".toList ++ hexStr (defaultHashString [])) [] := by decide

/-- **C5 (amended).** Supplying `"sha256=" ++ s` verifies exactly like
supplying `s`, except in the one case the counterexample exhibits: when
`s` is itself `"sha256="` followed by the expected signature of the
payload under the secret. -/
theorem verify_signature_prefix_strip (payload secret s : Str)
    (h : s ≠ "sha256=".toList ++ hexStr (defaultHashString (secret ++ payload))) :
    WebhookModule.verify_signature payload ("sha256=".toList ++ s) secret =
      WebhookModule.verify_signature payload s secret := by
  have hstrip1 : WebhookModule.stripSha256 ("sha256=".toList ++ s) = s := by
    unfold WebhookModule.stripSha256
    rw [if_pos]
    · exact List.drop_left "sha256=".toList s
    · rw [List.isPrefixOf_iff_prefix]
      exact List.prefix_append _ _
  simp only [WebhookModule.verify_signature, WebhookModule.create_signature]
  rw [hstrip1]
  by_cases hp : "sha256=".toList.isPrefixOf s
  · have hs' : WebhookModule.stripSha256 s = s.drop 7 := by
      unfold WebhookModule.stripSha256
      rw [if_pos hp]
    obtain ⟨t, ht⟩ := List.isPrefixOf_iff_prefix.mp hp
    have hteq : s.drop 7 = t := by
      rw [← ht]
      exact List.drop_left "sha256=".toList t
    have h1 : s ≠ hexStr (defaultHashString (secret ++ payload)) := by
      rw [← ht]
      exact sha_prefix_ne_hexStr
    have h2 : s.drop 7 ≠ hexStr (defaultHashString (secret ++ payload)) := by
      rw [hteq]
      intro he
      apply h
      rw [← ht, he]
    rw [hs', decide_eq_false h1, decide_eq_false h2]
  · have hs' : WebhookModule.stripSha256 s = s := by
      unfold WebhookModule.stripSha256
      rw [if_neg hp]
    rw [hs']

theorem verify_signature_prefix_strip_witness :
    WebhookModule.verify_signature "payload".toList
        ("sha256=".toList ++ "x".toList) "secret".toList =
      WebhookModule.verify_signature "payload".toList "x".toList
        "secret".toList :=
  verify_signature_prefix_strip "payload".toList "secret".toList "x".toList
    (by decide)

/-- **C4.** On every response status at least 400, the response handling of
`make_request` never returns `Ok`: it fails with `ApiError` carrying the
status and a message that is the string value of the body's `message`
field when the body is JSON with such a field, and `"Unknown API error"`
otherwise. -/
theorem make_request_error_responses (status : Nat) (body_text : Str)
    (h : 400 ≤ status) :
    (∀ v, TapsilatClient.handleResponse status body_text ≠ .ok v) ∧
    TapsilatClient.handleResponse status body_text =
      .error (.ApiError status (TapsilatClient.apiErrorMessage body_text)) ∧
    (∀ j s, parseJson body_text = .ok j →
      jsonIndex j "message".toList = .str s →
      TapsilatClient.apiErrorMessage body_text = String.mk s) ∧
    ((∀ j, parseJson body_text = .ok j →
        ∀ s, jsonIndex j "message".toList ≠ .str s) →
      TapsilatClient.apiErrorMessage body_text = "Unknown API error") := by
  have herr : TapsilatClient.handleResponse status body_text =
      .error (.ApiError status (TapsilatClient.apiErrorMessage body_text)) := by
    unfold TapsilatClient.handleResponse
    rw [if_pos h]
  refine ⟨?_, herr, ?_, ?_⟩
  · intro v hv
    rw [herr] at hv
    exact Except.noConfusion hv
  · intro j s hj hidx
    have hb : TapsilatClient.errorBody body_text = j := by
      unfold TapsilatClient.errorBody
      rw [hj]
    unfold TapsilatClient.apiErrorMessage
    rw [hb, hidx]
    rfl
  · intro hnone
    unfold TapsilatClient.apiErrorMessage
    cases hpj : parseJson body_text with
    | error e =>
      have hb : TapsilatClient.errorBody body_text = .null := by
        unfold TapsilatClient.errorBody
        rw [hpj]
      rw [hb]
      rfl
    | ok j =>
      have hb : TapsilatClient.errorBody body_text = j := by
        unfold TapsilatClient.errorBody
        rw [hpj]
      rw [hb]
      have hnostr : jsonAsStr (jsonIndex j "message".toList) = none := by
        cases hidx : jsonIndex j "message".toList with
        | str s => exact absurd hidx (hnone j hpj s)
        | null => rfl
        | bool b => rfl
        | num q => rfl
        | arr l => rfl
        | obj f => rfl
      rw [hnostr]

theorem make_request_error_responses_witness :
    (∀ v, TapsilatClient.handleResponse 404 "nope".toList ≠ .ok v) ∧
    TapsilatClient.handleResponse 404 "nope".toList =
      .error (.ApiError 404 (TapsilatClient.apiErrorMessage "nope".toList)) ∧
    (∀ j s, parseJson "nope".toList = .ok j →
      jsonIndex j "message".toList = .str s →
      TapsilatClient.apiErrorMessage "nope".toList = String.mk s) ∧
    ((∀ j, parseJson "nope".toList = .ok j →
        ∀ s, jsonIndex j "message".toList ≠ .str s) →
      TapsilatClient.apiErrorMessage "nope".toList = "Unknown API error") :=
  make_request_error_responses 404 "nope".toList (by norm_num)

/-- An unknown event-type string deserializes to an error, never to a
default variant. -/
lemma deserializeEventType_unknown {s : Str} (hmem : s ∉ knownEventNames) :
    deserializeEventType (.str s) =
      .error "unknown variant for WebhookEventType" := by
  simp only [knownEventNames, List.mem_cons, not_or] at hmem
  obtain ⟨h1, h2, h3, h4, h5, h6, h7, h8, -⟩ := hmem
  show (if s = "order.completed".toList then
      Except.ok WebhookEventType.OrderCompleted
    else if s = "order.failed".toList then .ok .OrderFailed
    else if s = "order.cancelled".toList then .ok .OrderCancelled
    else if s = "order.refunded".toList then .ok .OrderRefunded
    else if s = "payment.completed".toList then .ok .PaymentCompleted
    else if s = "payment.failed".toList then .ok .PaymentFailed
    else if s = "installment.completed".toList then .ok .InstallmentCompleted
    else if s = "installment.failed".toList then .ok .InstallmentFailed
    else .error "unknown variant for WebhookEventType") =
    .error "unknown variant for WebhookEventType"
  rw [if_neg h1, if_neg h2, if_neg h3, if_neg h4, if_neg h5, if_neg h6,
    if_neg h7, if_neg h8]

/-- **C6.** `parse_webhook` deserializes only the eight known event-type
strings (a closed enum): the concrete `order.completed` payload parses to
`OrderCompleted`, every successful parse carries one of the eight event
names, and a payload whose `event_type` field is any other string fails
with a parse error rather than defaulting. -/
theorem parse_webhook_closed_event_enum :
    WebhookModule.parse_webhook
        "\x7b\"event_type\": \"order.completed\", \"data\": \x7b\x7d, \"timestamp\": \"123\"\x7d".toList =
      .ok ⟨.OrderCompleted, ⟨none, none, none, none, none, none, none⟩,
        "123".toList, none⟩ ∧
    (∀ payload evt, WebhookModule.parse_webhook payload = .ok evt →
      evt.event_type.rename ∈ knownEventNames) ∧
    (∀ payload j s, parseJson payload = .ok j →
      lookupField j "event_type".toList = some (.str s) →
      s ∉ knownEventNames →
      WebhookModule.parse_webhook payload =
        .error (.InvalidResponse
          ("Failed to parse webhook payload: " ++
           "unknown variant for WebhookEventType"))) := by
  refine ⟨by rfl, ?_, ?_⟩
  · intro payload evt _
    cases hevt : evt.event_type <;> decide
  · intro payload j s hpj hl hmem
    cases j with
    | null => exact absurd hl (by simp [lookupField])
    | bool b => exact absurd hl (by simp [lookupField])
    | num q => exact absurd hl (by simp [lookupField])
    | str t => exact absurd hl (by simp [lookupField])
    | arr l => exact absurd hl (by simp [lookupField])
    | obj fields =>
      have h1 : fromStrWebhookEvent payload =
          deserializeWebhookEvent (.obj fields) := by
        unfold fromStrWebhookEvent
        rw [hpj]
      have h2 : deserializeWebhookEvent (.obj fields) =
          .error "unknown variant for WebhookEventType" := by
        have hfield : deserializeEventTypeField
            (lookupField (.obj fields) "event_type".toList) =
            .error "unknown variant for WebhookEventType" := by
          rw [hl]
          exact deserializeEventType_unknown hmem
        unfold deserializeWebhookEvent
        rw [hfield]
        rfl
      unfold WebhookModule.parse_webhook
      rw [h1, h2]

/-- Every failure of `validate_amount` is a `ValidationError`. -/
lemma validate_amount_shape (q : ℚ) :
    Validators.validate_amount q = .ok () ∨
      ∃ m, Validators.validate_amount q = .error (.ValidationError m) := by
  unfold Validators.validate_amount
  split_ifs <;>
    first
    | exact Or.inl rfl
    | exact Or.inr ⟨_, rfl⟩

/-- Every failure of `validate_email` is a `ValidationError`. -/
lemma validate_email_shape (email : Str) :
    Validators.validate_email email = .ok () ∨
      ∃ m, Validators.validate_email email = .error (.ValidationError m) := by
  unfold Validators.validate_email
  split_ifs <;>
    first
    | exact Or.inl rfl
    | exact Or.inr ⟨_, rfl⟩

/-- Every failure of `validate_gsm` is a `ValidationError`. -/
lemma validate_gsm_shape (gsm : Str) :
    (∃ r, Validators.validate_gsm gsm = .ok r) ∨
      ∃ m, Validators.validate_gsm gsm = .error (.ValidationError m) := by
  unfold Validators.validate_gsm
  split_ifs <;>
    first
    | exact Or.inl ⟨_, rfl⟩
    | exact Or.inr ⟨_, rfl⟩

/-- Every failure of the buyer check is a `ValidationError`. -/
lemma validateBuyer_shape (buyer : Option OrderBuyer) :
    OrderModule.validateBuyer buyer = .ok () ∨
      ∃ m, OrderModule.validateBuyer buyer = .error (.ValidationError m) := by
  cases buyer with
  | none => exact Or.inl rfl
  | some b =>
    rcases validate_email_shape b.email with he | ⟨m, he⟩
    · rcases validate_gsm_shape b.gsm with ⟨r, hg⟩ | ⟨m, hg⟩
      · exact Or.inl (by simp only [OrderModule.validateBuyer]; rw [he, hg])
      · exact Or.inr ⟨m, by simp only [OrderModule.validateBuyer]; rw [he, hg]⟩
    · exact Or.inr ⟨m, by simp only [OrderModule.validateBuyer]; rw [he]⟩

/-- Every failure of the item loop is a `ValidationError`. -/
lemma validateItems_shape (items : List OrderItem) :
    OrderModule.validateItems items = .ok () ∨
      ∃ m, OrderModule.validateItems items = .error (.ValidationError m) := by
  induction items with
  | nil => exact Or.inl rfl
  | cons item rest ih =>
    unfold OrderModule.validateItems
    rcases validate_amount_shape item.price with ha | ⟨m, ha⟩
    · rw [ha]
      split_ifs <;>
        first
        | exact Or.inr ⟨_, rfl⟩
        | exact ih
    · rw [ha]
      exact Or.inr ⟨m, rfl⟩

/-- **C7.** The amount/items cross-check of the order-creation validator:
an order of amount `149.99` with one item `149.99 × 1` passes; the same
amount with an item total of `299.98` fails with a message naming both
totals formatted to two decimal places; in general, validation fails with
a `ValidationError` whenever the absolute difference between the amount
and the computed items total exceeds `0.01`. -/
theorem validate_create_order_amount_cross_check :
    OrderModule.validate_create_order_request
        ⟨14999 / 100, none, [⟨"Item".toList, 14999 / 100, 1, none⟩]⟩ =
      .ok () ∧
    OrderModule.fmt2 (14999 / 100) = "149.99" ∧
    OrderModule.calculatedTotal [⟨"Item".toList, 14999 / 100, 2, none⟩] =
      29998 / 100 ∧
    OrderModule.fmt2 (29998 / 100) = "299.98" ∧
    OrderModule.validate_create_order_request
        ⟨14999 / 100, none, [⟨"Item".toList, 14999 / 100, 2, none⟩]⟩ =
      .error (.ValidationError
        ("Order amount (" ++ "149.99" ++ ") doesn't match items total (" ++
         "299.98" ++ ")")) ∧
    (∀ request : CreateOrderRequest,
      1 / 100 < |request.amount - OrderModule.calculatedTotal request.items| →
      ∃ m, OrderModule.validate_create_order_request request =
        .error (.ValidationError m)) := by
  refine ⟨by with_unfolding_all rfl, by with_unfolding_all rfl,
    by with_unfolding_all rfl, by with_unfolding_all rfl,
    by with_unfolding_all rfl, ?_⟩
  intro request hgt
  unfold OrderModule.validate_create_order_request
  rcases validate_amount_shape request.amount with ha | ⟨m, ha⟩
  · rw [ha]
    rcases validateBuyer_shape request.buyer with hb | ⟨m, hb⟩
    · rw [hb]
      by_cases hie : request.items.isEmpty
      · rw [if_pos hie]
        exact ⟨_, rfl⟩
      · rw [if_neg hie]
        rcases validateItems_shape request.items with hi | ⟨m, hi⟩
        · rw [hi, if_pos hgt]
          exact ⟨_, rfl⟩
        · rw [hi]
          exact ⟨m, rfl⟩
    · rw [hb]
      exact ⟨m, rfl⟩
  · rw [ha]
    exact ⟨m, rfl⟩

theorem validate_gsm_idempotent_witness :
    Validators.validate_gsm "905551234567".toList =
      .ok "905551234567".toList :=
  validate_gsm_idempotent "905551234567".toList "905551234567".toList
    (by decide)
